import Mathlib

/-!
Verification of the alert-rule engine of the IoT smart-building dashboard.

The definitions below are a shallow embedding of the Python sources:
`webapp/utils/alert_rules_manager.py` (rule evaluation, cooldown, trigger
statistics), `webapp/models/alert_rule.py` (rule validation),
`webapp/utils/notifications.py` (the notification dispatcher) and
`webapp/utils/realtime_monitor.py` (the action-firing loop).

Modelling conventions:
- Python dict fields accessed with `.get(key, default)` become `Option`
  fields, with `Option.getD` at the access site; `none` stands for an
  absent key (the code never distinguishes an absent key from a key
  explicitly set to `None` at the places embedded here).
- Python truthiness of strings, lists and integers is made explicit at
  each use site (`"" `, `[]`, `0` are falsy).
- Floats are embedded as exact rationals `ℚ`; timestamps as integer
  seconds `ℤ` (`datetime.now()` is passed in as an explicit `now`
  argument).
- Network side effects (HTTP posts, SMTP) are modelled by oracles: an
  `http : Request → Nat` oracle returns the status code of a request, and
  the list of `Request`s a function returns records exactly the HTTP
  calls it performed.
-/

/-- A telemetry log/event. `fields` is the numeric part of the Python
dict, looked up by field name (`log.get(field)`); the attributes used by
`_filter_logs` and `_evaluate_pattern` are explicit. `timestamp = none`
means the timestamp is missing or unparsable, in which case
`_parse_timestamp` falls back to `now`. -/
inductive BuildingVal where
  | one : String → BuildingVal
  | many : List String → BuildingVal
deriving DecidableEq

structure Log where
  fields : List (String × ℚ)
  zone : Option String
  sensor_type : Option String
  status : Option String
  building : Option BuildingVal
  timestamp : Option ℤ
deriving DecidableEq

/-- `log.get(field)` for numeric fields. -/
def Log.getField (log : Log) (field : String) : Option ℚ :=
  List.lookup field log.fields

/-- The `conditions.filters` sub-object; empty list / absent string means
no restriction (Python truthiness of `filters.get(...)`). -/
structure Filters where
  zone : List String
  sensor_type : List String
  status : List String
  building : Option String
deriving DecidableEq

def noFilters : Filters := ⟨[], [], [], none⟩

/-- The `conditions` sub-dict of a rule. -/
structure Conditions where
  field : Option String
  operator : Option String
  threshold : Option ℚ
  min_value : Option ℚ
  max_value : Option ℚ
  time_window : Option ℤ
  event_count : Option ℕ
  filters : Filters
deriving DecidableEq

def noConditions : Conditions := ⟨none, none, none, none, none, none, none, noFilters⟩

/-- The `config` sub-dict of an action (only the keys the dispatcher and
the validator consult). -/
structure ActionConfig where
  recipients : List String
  url : Option String
  webhook_url : Option String
  method : Option String
deriving DecidableEq

structure RuleAction where
  type : Option String
  config : ActionConfig
  enabled : Option Bool
deriving DecidableEq

/-- The `stats` sub-dict of a rule. -/
structure Stats where
  total_triggers : Option ℤ
  last_7_days_triggers : Option ℤ
  avg_value_on_trigger : Option ℚ
  zones_affected : Option (List String)
deriving DecidableEq

/-- `stats` read through `.get` defaults, i.e. the empty dict `{}`. -/
def emptyStats : Stats := ⟨none, none, none, none⟩

/-- The zeroed stats block `create_rule` installs when the incoming rule
has no `stats` key. -/
def zeroStats : Stats := ⟨some 0, some 0, some 0, some []⟩

/-- An alert rule document. `name = ""` models an absent/empty name
(`rule.get('name')` truthiness). `stats = none` models a document without
a `stats` key. -/
structure Rule where
  name : String
  enabled : Option Bool
  rule_type : Option String
  conditions : Conditions
  actions : List RuleAction
  severity : Option String
  cooldown : Option ℤ
  last_triggered : Option ℤ
  trigger_count : ℤ
  stats : Option Stats
deriving DecidableEq

/-- Python truthiness of an optional string. -/
def truthyStr : Option String → Bool
  | none => false
  | some s => s ≠ ""

/-- Python truthiness of an optional integer. -/
def truthyInt : Option ℤ → Bool
  | none => false
  | some n => n ≠ 0

-- ==================== _filter_logs ====================

/-- The `match_building` closure of `_filter_logs`. -/
def match_building (target : String) (log : Log) : Bool :=
  match log.building with
  | none => false
  | some (BuildingVal.many bs) => decide (target ∈ bs)
  | some (BuildingVal.one b) => b = target

/-- `AlertRulesManager._filter_logs`. -/
def filter_logs (logs : List Log) (filters : Filters) : List Log :=
  let f1 := if filters.zone ≠ [] then
      logs.filter (fun log => match log.zone with
        | some z => decide (z ∈ filters.zone)
        | none => false)
    else logs
  let f2 := if filters.sensor_type ≠ [] then
      f1.filter (fun log => match log.sensor_type with
        | some s => decide (s ∈ filters.sensor_type)
        | none => false)
    else f1
  let f3 := if filters.status ≠ [] then
      f2.filter (fun log => match log.status with
        | some s => decide (s ∈ filters.status)
        | none => false)
    else f2
  match filters.building with
  | some b => if b ≠ "" then f3.filter (match_building b) else f3
  | none => f3

-- ==================== Rule evaluation ====================

/-- The operator chain of `_evaluate_threshold` (an unknown operator
string never triggers). -/
def applyOp (op : String) (value threshold : ℚ) : Bool :=
  if op = ">" then decide (value > threshold)
  else if op = "<" then decide (value < threshold)
  else if op = ">=" then decide (value ≥ threshold)
  else if op = "<=" then decide (value ≤ threshold)
  else if op = "==" then decide (value = threshold)
  else if op = "!=" then decide (value ≠ threshold)
  else false

/-- The per-log test of `_evaluate_threshold`: a log with the field
absent (or `None`) is skipped (`continue`), otherwise the operator is
applied. -/
def threshold_sat (field op : String) (threshold : ℚ) (log : Log) : Bool :=
  match log.getField field with
  | none => false
  | some v => applyOp op v threshold

/-- `AlertRulesManager._evaluate_threshold`. -/
def evaluate_threshold (rule : Rule) (logs : List Log) : Bool × List Log :=
  let c := rule.conditions
  let field := c.field.getD "value"
  let op := c.operator.getD ">"
  let threshold := c.threshold.getD 0
  let matching_logs := filter_logs logs c.filters
  let triggered_logs := matching_logs.filter (threshold_sat field op threshold)
  (decide (0 < triggered_logs.length), triggered_logs)

/-- The per-log test of `_evaluate_range`. -/
def range_sat (field : String) (min_value max_value : ℚ) (log : Log) : Bool :=
  match log.getField field with
  | none => false
  | some v => decide (v < min_value) || decide (v > max_value)

/-- `AlertRulesManager._evaluate_range`. -/
def evaluate_range (rule : Rule) (logs : List Log) : Bool × List Log :=
  let c := rule.conditions
  let field := c.field.getD "value"
  let min_value := c.min_value.getD 0
  let max_value := c.max_value.getD 100
  let matching_logs := filter_logs logs c.filters
  let out_of_range_logs := matching_logs.filter (range_sat field min_value max_value)
  (decide (0 < out_of_range_logs.length), out_of_range_logs)

/-- The window test of `_evaluate_pattern`: `_parse_timestamp` of a
missing/unparsable timestamp is `now`, which always passes the cutoff. -/
def pattern_qualifies (now cutoff : ℤ) (log : Log) : Bool :=
  decide (log.timestamp.getD now ≥ cutoff)

/-- `AlertRulesManager._evaluate_pattern`. -/
def evaluate_pattern (now : ℤ) (rule : Rule) (logs : List Log) : Bool × List Log :=
  let c := rule.conditions
  let time_window := c.time_window.getD 300
  let event_count := c.event_count.getD 3
  let matching_logs := filter_logs logs c.filters
  if matching_logs.length ≥ event_count then
    let cutoff := now - time_window
    let recent_logs := matching_logs.filter (pattern_qualifies now cutoff)
    if recent_logs.length ≥ event_count then (true, recent_logs.take event_count)
    else (false, [])
  else (false, [])

/-- `AlertRulesManager._evaluate_trend` (a bare TODO in the source). -/
def evaluate_trend (_rule : Rule) (_logs : List Log) : Bool × List Log :=
  (false, [])

/-- `AlertRulesManager.evaluate_rule`: the enabled gate, then dispatch on
`rule.get('rule_type', 'threshold')`. -/
def evaluate_rule (now : ℤ) (rule : Rule) (logs : List Log) : Bool × List Log :=
  if !(rule.enabled.getD false) then (false, [])
  else
    let rule_type := rule.rule_type.getD "threshold"
    if rule_type = "threshold" then evaluate_threshold rule logs
    else if rule_type = "range" then evaluate_range rule logs
    else if rule_type = "pattern" then evaluate_pattern now rule logs
    else if rule_type = "trend" then evaluate_trend rule logs
    else (false, [])

-- ==================== AlertRule.validate_rule ====================

def RULE_TYPES : List String := ["threshold", "range", "trend", "pattern"]
def OPERATORS : List String := [">", "<", ">=", "<=", "==", "!="]
def SEVERITIES : List String := ["low", "medium", "high", "critical"]
def ACTION_TYPES : List String := ["email", "webhook", "slack", "discord", "sms"]

/-- The body of the per-action loop in `AlertRule.validate_rule`
(error messages abridged). -/
def validate_action (action : RuleAction) : Option String :=
  if !(match action.type with
       | some t => decide (t ∈ ACTION_TYPES)
       | none => false) then
    some "Type action invalide"
  else
    let t := action.type.getD ""
    if t = "email" then
      if action.config.recipients = [] then some "Les destinataires email sont obligatoires"
      else none
    else if t = "webhook" || t = "slack" || t = "discord" then
      if !truthyStr action.config.url && !truthyStr action.config.webhook_url then
        some "URL obligatoire"
      else none
    else none

/-- The action loop of `AlertRule.validate_rule`: first failing action
wins. -/
def validate_actions : List RuleAction → Option String
  | [] => none
  | action :: rest =>
    match validate_action action with
    | some e => some e
    | none => validate_actions rest

/-- `AlertRule.validate_rule`. Note that the `conditions.field` presence
check is performed unconditionally, before the `rule_type` dispatch. -/
def validate_rule (rule : Rule) : Bool × String :=
  if rule.name = "" then (false, "Le nom de la regle est obligatoire")
  else if !(match rule.rule_type with
            | some t => decide (t ∈ RULE_TYPES)
            | none => false) then
    (false, "Type de regle invalide")
  else
    let c := rule.conditions
    if !truthyStr c.field then (false, "Le champ a surveiller est obligatoire")
    else
      let rt := rule.rule_type.getD ""
      let type_check : Option String :=
        if rt = "threshold" then
          if !(match c.operator with
               | some o => decide (o ∈ OPERATORS)
               | none => false) then some "Operateur invalide"
          else if c.threshold = none then some "Le seuil est obligatoire pour une regle threshold"
          else none
        else if rt = "range" then
          if c.min_value = none || c.max_value = none then
            some "min_value et max_value sont obligatoires pour une regle range"
          else none
        else if rt = "trend" || rt = "pattern" then
          if !truthyInt c.time_window then
            some "time_window est obligatoire pour les regles trend/pattern"
          else none
        else none
      match type_check with
      | some e => (false, e)
      | none =>
        match validate_actions rule.actions with
        | some e => (false, e)
        | none =>
          if truthyStr rule.severity &&
             !(match rule.severity with
               | some s => decide (s ∈ SEVERITIES)
               | none => false) then
            (false, "Severite invalide")
          else (true, "")

-- ==================== create_rule / cooldown / stats ====================

/-- The document built by `AlertRulesManager.create_rule` when validation
passes: metadata is attached (`last_triggered = None`,
`trigger_count = 0`) and a zeroed `stats` block is installed only when
the incoming rule has none. The name-uniqueness check and the insertion
are database operations that do not change the inserted document, so
this returns the inserted document, or `none` when validation rejects
the rule. -/
def create_rule (rule : Rule) : Option Rule :=
  if (validate_rule rule).1 then
    some { rule with
            last_triggered := none,
            trigger_count := 0,
            stats := some (rule.stats.getD zeroStats) }
  else none

/-- `AlertRulesManager.check_cooldown`, with the `get_rule` lookup result
passed in (`none` models a missing rule, for which the code returns
`False`). -/
def check_cooldown (now : ℤ) (lookup : Option Rule) : Bool :=
  match lookup with
  | none => false
  | some rule =>
    match rule.last_triggered with
    | none => true
    | some last_triggered => decide (now - last_triggered ≥ rule.cooldown.getD 300)

/-- `AlertRulesManager.update_last_triggered` acting on the stored
document: recomputes the `stats` block (total, zones, moving average)
from the fetched rule, then persists it together with
`last_triggered = now` and an atomic `$inc` of `trigger_count`.
`zones_affected = []` models a `None`/empty argument, `avg_value = none`
an absent average. -/
def update_last_triggered (now : ℤ) (rule : Rule)
    (zones_affected : List String) (avg_value : Option ℚ) : Rule :=
  let stats0 := rule.stats.getD emptyStats
  let total := stats0.total_triggers.getD 0 + 1
  let stats1 := { stats0 with total_triggers := some total }
  let stats2 :=
    if zones_affected ≠ [] then
      { stats1 with
          zones_affected := some ((stats1.zones_affected.getD []).union zones_affected) }
    else stats1
  let stats3 :=
    match avg_value with
    | none => stats2
    | some v =>
      let current_avg := stats2.avg_value_on_trigger.getD 0
      if total > 1 then
        { stats2 with
            avg_value_on_trigger := some ((current_avg * ((total : ℚ) - 1) + v) / (total : ℚ)) }
      else { stats2 with avg_value_on_trigger := some v }
  { rule with
      last_triggered := some now,
      stats := some stats3,
      trigger_count := rule.trigger_count + 1 }

/-- `rule.get('trigger_count', 0)` next to
`rule.get('stats', {}).get('total_triggers', 0)`. -/
def totalTriggers (rule : Rule) : ℤ :=
  (rule.stats.getD emptyStats).total_triggers.getD 0

def avgOnTrigger (rule : Rule) : ℚ :=
  (rule.stats.getD emptyStats).avg_value_on_trigger.getD 0

/-- A sequence of firings recorded through `update_last_triggered`, one
per average value, with no zones. -/
def applyTriggers (now : ℤ) (rule : Rule) (vs : List ℚ) : Rule :=
  vs.foldl (fun r v => update_last_triggered now r [] (some v)) rule

-- ==================== NotificationManager ====================

/-- One outbound HTTP call: target URL and whether `requests.post` (as
opposed to `requests.get`) was used. -/
structure Request where
  url : String
  post : Bool
deriving DecidableEq

/-- `NotificationManager._send_webhook`, with the HTTP transport as an
oracle from requests to status codes. The second component lists the
HTTP requests actually performed. Payload/header contents are not
observable in this model and are omitted. -/
def send_webhook (http : Request → ℕ) (config : ActionConfig) : Bool × List Request :=
  if !truthyStr config.url then (false, [])
  else
    let url := config.url.getD ""
    let method := (config.method.getD "POST").toUpper
    let req : Request := ⟨url, method = "POST"⟩
    (decide (http req < 400), [req])

/-- `NotificationManager._send_slack` (reads `config['webhook_url']`,
success iff status 200). -/
def send_slack (http : Request → ℕ) (config : ActionConfig) : Bool × List Request :=
  if !truthyStr config.webhook_url then (false, [])
  else
    let req : Request := ⟨config.webhook_url.getD "", true⟩
    (decide (http req = 200), [req])

/-- `NotificationManager._send_discord` (reads `config['webhook_url']`,
success iff status 200 or 204). -/
def send_discord (http : Request → ℕ) (config : ActionConfig) : Bool × List Request :=
  if !truthyStr config.webhook_url then (false, [])
  else
    let req : Request := ⟨config.webhook_url.getD "", true⟩
    (decide (http req = 200) || decide (http req = 204), [req])

/-- `NotificationManager._send_email`, with SMTP delivery as an oracle;
no HTTP request is ever performed on this path. -/
def send_email (smtp : List String → Bool) (config : ActionConfig) : Bool × List Request :=
  if config.recipients = [] then (false, [])
  else (smtp config.recipients, [])

/-- `NotificationManager.send_notification`: dispatch on
`action.get('type', 'email')` through the handlers table; a type with no
handler (e.g. `sms`) returns `False`. The rule and matching logs only
shape payload text, which is not observable here. -/
def send_notification (http : Request → ℕ) (smtp : List String → Bool)
    (action : RuleAction) : Bool × List Request :=
  let t := action.type.getD "email"
  if t = "email" then send_email smtp action.config
  else if t = "webhook" then send_webhook http action.config
  else if t = "slack" then send_slack http action.config
  else if t = "discord" then send_discord http action.config
  else (false, [])

/-- `AlertMonitor._trigger_rule_actions`: iterates over
`rule.get('actions', [])` and calls
`notification_manager.send_notification` once per action, recording each
dispatched action with its result. The loop contains no check of
`action['enabled']`. -/
def trigger_rule_actions (http : Request → ℕ) (smtp : List String → Bool)
    (rule : Rule) : List (RuleAction × Bool) :=
  rule.actions.map (fun action => (action, (send_notification http smtp action).1))

-- ==================== Concrete documents for witnesses ====================

/-- A well-formed threshold rule shaped like the repository's
"Température Critique" example. -/
def baseRule : Rule :=
  { name := "Temperature Critique - Zone A",
    enabled := some true,
    rule_type := some "threshold",
    conditions := { noConditions with
                     field := some "value",
                     operator := some ">",
                     threshold := some 35 },
    actions := [],
    severity := some "critical",
    cooldown := some 300,
    last_triggered := none,
    trigger_count := 0,
    stats := none }

/-- A pattern rule with `time_window` present but no `conditions.field`. -/
def c4rule : Rule :=
  { name := "Alarmes Multiples",
    enabled := some true,
    rule_type := some "pattern",
    conditions := { noConditions with
                     time_window := some 300,
                     event_count := some 3 },
    actions := [],
    severity := none,
    cooldown := none,
    last_triggered := none,
    trigger_count := 0,
    stats := none }

-- ==================== Theorems ====================

/-- C9: a rule whose `enabled` field is absent or `false` makes
`evaluate_rule` return `(false, [])` on every event list; the early
return fires before any condition is consulted. -/
theorem C9_disabled_rule_not_evaluated (now : ℤ) (rule : Rule) (logs : List Log)
    (h : rule.enabled = none ∨ rule.enabled = some false) :
    evaluate_rule now rule logs = (false, []) := by
  rcases h with h | h <;> simp [evaluate_rule, h]

theorem C9_disabled_rule_not_evaluated_witness :
    evaluate_rule 0 { baseRule with enabled := none } [] = (false, []) :=
  C9_disabled_rule_not_evaluated 0 _ [] (Or.inl rfl)

/-- C8: a rule whose `rule_type` is `trend`, or is any string outside the
closed set `{threshold, range, pattern, trend}`, evaluates to
`(false, [])` on every event list; the embedding is total, so no error
is ever raised. -/
theorem C8_trend_and_unknown_types_never_trigger (now : ℤ) (rule : Rule)
    (logs : List Log) (t : String) (ht : rule.rule_type = some t)
    (h : t = "trend" ∨ t ∉ RULE_TYPES) :
    evaluate_rule now rule logs = (false, []) := by
  by_cases he : rule.enabled.getD false
  · rcases h with h | h
    · subst h
      simp [evaluate_rule, ht, he, evaluate_trend]
    · simp only [RULE_TYPES, List.mem_cons, List.not_mem_nil, or_false, not_or] at h
      obtain ⟨h1, h2, h3, h4⟩ := h
      simp [evaluate_rule, ht, he, h1, h2, h3, h4]
  · simp [evaluate_rule, he]

theorem C8_trend_and_unknown_types_never_trigger_witness :
    evaluate_rule 0 { baseRule with rule_type := some "trend" } [] = (false, []) :=
  C8_trend_and_unknown_types_never_trigger 0 _ [] "trend" rfl (Or.inl rfl)

/-- C6: `check_cooldown` is `true` when `last_triggered` is absent, and
otherwise `true` iff `now - last_triggered ≥ cooldown` (default 300
seconds); in particular, with `cooldown = 300`, it is `false` 100
seconds after the last trigger and `true` 400 seconds after. -/
theorem C6_check_cooldown_spec (now : ℤ) (rule : Rule) :
    (rule.last_triggered = none → check_cooldown now (some rule) = true) ∧
    (∀ lt : ℤ, rule.last_triggered = some lt →
      (check_cooldown now (some rule) = true ↔ now - lt ≥ rule.cooldown.getD 300)) ∧
    (rule.cooldown = some 300 → rule.last_triggered = some (now - 100) →
      check_cooldown now (some rule) = false) ∧
    (rule.cooldown = some 300 → rule.last_triggered = some (now - 400) →
      check_cooldown now (some rule) = true) := by
  refine ⟨fun h => by simp [check_cooldown, h],
          fun lt h => by simp [check_cooldown, h],
          fun hc h => by simp [check_cooldown, h, hc],
          fun hc h => by simp [check_cooldown, h, hc]⟩

theorem C6_check_cooldown_spec_witness :
    check_cooldown 0 (some baseRule) = true ∧
    check_cooldown 0 (some { baseRule with last_triggered := some (-100) }) = false ∧
    check_cooldown 0 (some { baseRule with last_triggered := some (-400) }) = true :=
  ⟨(C6_check_cooldown_spec 0 baseRule).1 rfl,
   (C6_check_cooldown_spec 0 _).2.2.1 rfl (by decide),
   (C6_check_cooldown_spec 0 _).2.2.2 rfl (by decide)⟩

/-- C4, counterexample: a rule with a non-empty name, `rule_type`
`pattern` and `time_window` present but no `conditions.field` is
rejected by `validate_rule` (the field presence check runs before the
per-type dispatch), contradicting the claim that it passes validation. -/
theorem C4_counterexample :
    c4rule.name ≠ "" ∧ c4rule.rule_type = some "pattern" ∧
    c4rule.conditions.field = none ∧ truthyInt c4rule.conditions.time_window = true ∧
    (validate_rule c4rule).1 = false := by decide

/-- C4 amended: `validate_rule` requires `conditions.field` for every
rule type, pattern and trend included: any rule whose `conditions.field`
is absent or empty fails validation. -/
theorem C4_field_required_for_all_types (rule : Rule)
    (h : rule.conditions.field = none ∨ rule.conditions.field = some "") :
    (validate_rule rule).1 = false := by
  have hf : truthyStr rule.conditions.field = false := by
    rcases h with h | h <;> simp [truthyStr, h]
  simp only [validate_rule, hf, Bool.not_false, if_true]
  split_ifs <;> rfl

theorem C4_field_required_for_all_types_witness :
    (validate_rule { baseRule with
        conditions := { baseRule.conditions with field := none } }).1 = false :=
  C4_field_required_for_all_types _ (Or.inl rfl)

-- ==================== Helper lemmas ====================

lemma length_pos_filter_iff {α : Type} (p : α → Bool) (l : List α) :
    0 < (l.filter p).length ↔ ∃ a ∈ l, p a = true := by
  induction l with
  | nil => simp
  | cons x xs ih => by_cases h : p x <;> simp [List.filter_cons, h, ih]

lemma threshold_sat_iff (field op : String) (th : ℚ) (log : Log) :
    threshold_sat field op th log = true ↔
      ∃ v, log.getField field = some v ∧ applyOp op v th = true := by
  unfold threshold_sat
  cases h : log.getField field <;> simp [h]

-- ==================== C1 ====================

/-- C1: on an enabled threshold rule, `evaluate_rule` is triggered iff
some filtered event has the configured field present with a value
satisfying the configured operator against the threshold, and the
matched list is exactly the subset of filtered events satisfying the
operator; events with the field absent are skipped by `threshold_sat`
and the evaluator is a total function, so no error is ever raised. -/
theorem C1_threshold_evaluate (now : ℤ) (rule : Rule) (logs : List Log)
    (hen : rule.enabled = some true)
    (hty : rule.rule_type.getD "threshold" = "threshold") :
    ((evaluate_rule now rule logs).1 = true ↔
      ∃ log ∈ filter_logs logs rule.conditions.filters,
        ∃ v, log.getField (rule.conditions.field.getD "value") = some v ∧
          applyOp (rule.conditions.operator.getD ">") v
            (rule.conditions.threshold.getD 0) = true) ∧
    (evaluate_rule now rule logs).2 =
      (filter_logs logs rule.conditions.filters).filter
        (threshold_sat (rule.conditions.field.getD "value")
          (rule.conditions.operator.getD ">") (rule.conditions.threshold.getD 0)) := by
  have he : evaluate_rule now rule logs = evaluate_threshold rule logs := by
    simp [evaluate_rule, hen, hty]
  rw [he]
  unfold evaluate_threshold
  refine ⟨?_, rfl⟩
  simp only [decide_eq_true_eq, length_pos_filter_iff, threshold_sat_iff]

def c1log1 : Log := ⟨[("value", 36)], some "A", some "temperature", none, none, none⟩
def c1log2 : Log := ⟨[("value", 30)], some "A", some "temperature", none, none, none⟩
def c1log3 : Log := ⟨[], some "A", none, none, none, none⟩

theorem C1_threshold_evaluate_witness :
    ((evaluate_rule 0 baseRule [c1log1, c1log2, c1log3]).1 = true ↔
      ∃ log ∈ filter_logs [c1log1, c1log2, c1log3] baseRule.conditions.filters,
        ∃ v, log.getField (baseRule.conditions.field.getD "value") = some v ∧
          applyOp (baseRule.conditions.operator.getD ">") v
            (baseRule.conditions.threshold.getD 0) = true) ∧
    (evaluate_rule 0 baseRule [c1log1, c1log2, c1log3]).2 =
      (filter_logs [c1log1, c1log2, c1log3] baseRule.conditions.filters).filter
        (threshold_sat (baseRule.conditions.field.getD "value")
          (baseRule.conditions.operator.getD ">") (baseRule.conditions.threshold.getD 0)) :=
  C1_threshold_evaluate 0 baseRule [c1log1, c1log2, c1log3] rfl rfl

-- ==================== C2 ====================

/-- A pattern rule shaped like the repository's "Alarmes Incendie
Multiples" example (filters left empty). -/
def c2rule : Rule :=
  { name := "Alarmes Incendie Multiples",
    enabled := some true,
    rule_type := some "pattern",
    conditions := { noConditions with
                     field := some "sensor_type",
                     time_window := some 300,
                     event_count := some 3 },
    actions := [],
    severity := some "critical",
    cooldown := some 60,
    last_triggered := none,
    trigger_count := 0,
    stats := none }

def c2log (t : ℤ) : Log :=
  ⟨[("value", 1)], some "A", some "fire_alarm", some "critical", none, some t⟩

/-- C2, counterexample: with `event_count = 3` and only 2 qualifying
events inside the window, the rule does not trigger and the matched list
is `[]`, of length 0 — not `min(event_count, available_count) = 2` as
the claim states. -/
theorem C2_counterexample :
    c2rule.conditions.event_count = some 3 ∧
    c2rule.conditions.time_window = some 300 ∧
    ((filter_logs [c2log 950, c2log 960] c2rule.conditions.filters).filter
        (pattern_qualifies 1000 (1000 - 300))).length = 2 ∧
    evaluate_rule 1000 c2rule [c2log 950, c2log 960] = (false, []) ∧
    (evaluate_rule 1000 c2rule [c2log 950, c2log 960]).2.length ≠ min 3 2 := by
  decide

/-- C2 amended: on an enabled pattern rule, `evaluate_rule` is triggered
iff the number of filtered events inside the trailing `time_window` is
at least `event_count`; when triggered, the matched list is the first
`event_count` qualifying events in filter order (length exactly
`event_count`), and when not triggered it is `[]` (length 0, not
`min(event_count, available_count)`). -/
theorem C2_pattern_evaluate (now : ℤ) (rule : Rule) (logs : List Log)
    (hen : rule.enabled = some true)
    (hty : rule.rule_type.getD "threshold" = "pattern") :
    ((evaluate_rule now rule logs).1 = true ↔
      ((filter_logs logs rule.conditions.filters).filter
          (pattern_qualifies now (now - rule.conditions.time_window.getD 300))).length ≥
        rule.conditions.event_count.getD 3) ∧
    (evaluate_rule now rule logs).2 =
      (if ((filter_logs logs rule.conditions.filters).filter
              (pattern_qualifies now (now - rule.conditions.time_window.getD 300))).length ≥
            rule.conditions.event_count.getD 3 then
        ((filter_logs logs rule.conditions.filters).filter
            (pattern_qualifies now (now - rule.conditions.time_window.getD 300))).take
          (rule.conditions.event_count.getD 3)
      else []) := by
  have he : evaluate_rule now rule logs = evaluate_pattern now rule logs := by
    simp [evaluate_rule, hen, hty]
  rw [he]
  unfold evaluate_pattern
  set matching := filter_logs logs rule.conditions.filters with hm
  set ec := rule.conditions.event_count.getD 3 with hec
  set recent := matching.filter
      (pattern_qualifies now (now - rule.conditions.time_window.getD 300)) with hr
  by_cases h1 : matching.length ≥ ec
  · by_cases h2 : recent.length ≥ ec
    · simp [h1, h2]
    · simp [h1, h2]
  · have h2 : ¬ recent.length ≥ ec := fun hc =>
      h1 (le_trans hc (by rw [hr]; exact List.length_filter_le _ _))
    simp [h1, h2]

theorem C2_pattern_evaluate_witness :
    ((evaluate_rule 1000 c2rule [c2log 950, c2log 960, c2log 970, c2log 980]).1 = true ↔
      ((filter_logs [c2log 950, c2log 960, c2log 970, c2log 980]
            c2rule.conditions.filters).filter
          (pattern_qualifies 1000 (1000 - c2rule.conditions.time_window.getD 300))).length ≥
        c2rule.conditions.event_count.getD 3) ∧
    (evaluate_rule 1000 c2rule [c2log 950, c2log 960, c2log 970, c2log 980]).2 =
      (if ((filter_logs [c2log 950, c2log 960, c2log 970, c2log 980]
              c2rule.conditions.filters).filter
            (pattern_qualifies 1000 (1000 - c2rule.conditions.time_window.getD 300))).length ≥
            c2rule.conditions.event_count.getD 3 then
        ((filter_logs [c2log 950, c2log 960, c2log 970, c2log 980]
              c2rule.conditions.filters).filter
            (pattern_qualifies 1000 (1000 - c2rule.conditions.time_window.getD 300))).take
          (c2rule.conditions.event_count.getD 3)
      else []) :=
  C2_pattern_evaluate 1000 c2rule [c2log 950, c2log 960, c2log 970, c2log 980] rfl rfl

-- ==================== C3 / C7 helper lemmas ====================

lemma trigger_count_update (now : ℤ) (rule : Rule)
    (zones : List String) (v : Option ℚ) :
    (update_last_triggered now rule zones v).trigger_count = rule.trigger_count + 1 := by
  simp [update_last_triggered]

lemma totalTriggers_update (now : ℤ) (rule : Rule)
    (zones : List String) (v : Option ℚ) :
    totalTriggers (update_last_triggered now rule zones v) = totalTriggers rule + 1 := by
  unfold update_last_triggered totalTriggers
  rcases v with _ | v
  · by_cases hz : zones ≠ [] <;> simp [hz]
  · by_cases hz : zones ≠ [] <;>
      by_cases ht : (rule.stats.getD emptyStats).total_triggers.getD 0 + 1 > 1 <;>
      simp [hz, ht]

lemma avg_update_first (now : ℤ) (rule : Rule) (v : ℚ)
    (h : totalTriggers rule = 0) :
    avgOnTrigger (update_last_triggered now rule [] (some v)) = v := by
  unfold totalTriggers at h
  unfold update_last_triggered avgOnTrigger
  simp [h]

lemma avg_update_step (now : ℤ) (rule : Rule) (v : ℚ)
    (h : 1 ≤ totalTriggers rule) :
    avgOnTrigger (update_last_triggered now rule [] (some v)) =
      (avgOnTrigger rule * (totalTriggers rule : ℚ) + v) /
        ((totalTriggers rule : ℚ) + 1) := by
  unfold totalTriggers at h
  unfold update_last_triggered avgOnTrigger totalTriggers
  have ht : (rule.stats.getD emptyStats).total_triggers.getD 0 + 1 > 1 := by omega
  simp [ht]

-- ==================== C3 ====================

/-- A rule valid for creation but carrying a caller-supplied `stats`
block whose `total_triggers` is already 5. -/
def c3rule : Rule := { baseRule with stats := some ⟨some 5, some 0, some 0, some []⟩ }

/-- C3, counterexample: `create_rule` keeps a caller-supplied `stats`
block as-is while forcing `trigger_count = 0`, so the created document
has `trigger_count = 0` but `stats.total_triggers = 5`: the claimed
equality does not hold for every rule created through `create_rule`. -/
theorem C3_counterexample :
    (validate_rule c3rule).1 = true ∧
    (create_rule c3rule).map (fun d => d.trigger_count) = some 0 ∧
    (create_rule c3rule).map totalTriggers = some 5 := by decide

/-- C3 amended: `trigger_count = stats.total_triggers` holds for every
rule created through `create_rule` whose input carries no `stats` block
(the zeroed block is installed), and the equality is preserved by every
`update_last_triggered` call (both sides increment by one). It can fail
at creation when the caller supplies a `stats` block with a nonzero
`total_triggers`. -/
theorem C3_trigger_count_matches_stats (now : ℤ) (rule : Rule)
    (zones : List String) (v : Option ℚ) :
    (rule.stats = none → ∀ d, create_rule rule = some d →
      d.trigger_count = totalTriggers d) ∧
    (rule.trigger_count = totalTriggers rule →
      (update_last_triggered now rule zones v).trigger_count =
        totalTriggers (update_last_triggered now rule zones v)) := by
  constructor
  · intro hs d hd
    by_cases hv : (validate_rule rule).1
    · simp only [create_rule, hv, if_true, Option.some.injEq] at hd
      subst hd
      simp [totalTriggers, hs, zeroStats]
    · simp [create_rule, hv] at hd
  · intro hinv
    rw [trigger_count_update, totalTriggers_update, hinv]

theorem C3_trigger_count_matches_stats_witness :
    baseRule.stats = none ∧
    (∀ d, create_rule baseRule = some d → d.trigger_count = totalTriggers d) ∧
    (update_last_triggered 7 baseRule ["A"] (some 36)).trigger_count =
      totalTriggers (update_last_triggered 7 baseRule ["A"] (some 36)) :=
  ⟨rfl,
   (C3_trigger_count_matches_stats 7 baseRule ["A"] (some 36)).1 rfl,
   (C3_trigger_count_matches_stats 7 baseRule ["A"] (some 36)).2 (by decide)⟩

-- ==================== C7 ====================

lemma applyTriggers_cons (now : ℤ) (rule : Rule) (v : ℚ) (vs : List ℚ) :
    applyTriggers now rule (v :: vs) =
      applyTriggers now (update_last_triggered now rule [] (some v)) vs := rfl

lemma applyTriggers_mean_aux (now : ℤ) (vs : List ℚ) :
    ∀ rule : Rule, 1 ≤ totalTriggers rule →
      totalTriggers (applyTriggers now rule vs) = totalTriggers rule + vs.length ∧
      avgOnTrigger (applyTriggers now rule vs) =
        (avgOnTrigger rule * (totalTriggers rule : ℚ) + vs.sum) /
          ((totalTriggers rule : ℚ) + vs.length) := by
  induction vs with
  | nil =>
    intro rule h
    have hn : (totalTriggers rule : ℚ) ≠ 0 := by
      have : (1 : ℚ) ≤ (totalTriggers rule : ℚ) := by exact_mod_cast h
      linarith
    refine ⟨by simp [applyTriggers], ?_⟩
    simp [applyTriggers]
    field_simp
  | cons v vs ih =>
    intro rule h
    have hstep_total := totalTriggers_update now rule [] (some v)
    have hstep_avg := avg_update_step now rule v h
    have h1 : 1 ≤ totalTriggers (update_last_triggered now rule [] (some v)) := by
      rw [hstep_total]; omega
    obtain ⟨iht, iha⟩ := ih (update_last_triggered now rule [] (some v)) h1
    have hn1 : (totalTriggers rule : ℚ) + 1 ≠ 0 := by
      have : (1 : ℚ) ≤ (totalTriggers rule : ℚ) := by exact_mod_cast h
      linarith
    constructor
    · rw [applyTriggers_cons, iht, hstep_total]
      simp [List.length_cons]
      omega
    · rw [applyTriggers_cons, iha, hstep_avg, hstep_total]
      simp only [List.sum_cons, List.length_cons]
      push_cast
      have hq : (1 : ℚ) ≤ (totalTriggers rule : ℚ) := by exact_mod_cast h
      have hlen : (0 : ℚ) ≤ (vs.length : ℚ) := by positivity
      have hd : (totalTriggers rule : ℚ) + 1 + (vs.length : ℚ) ≠ 0 := by nlinarith
      field_simp
      ring

/-- C7: starting from a freshly created rule (zero `total_triggers`),
recording `n` triggers with average values `v1..vn` through
`update_last_triggered` leaves `total_triggers = n` and
`avg_value_on_trigger = mean(v1..vn)` exactly (floats embedded as exact
rationals); moreover each step computes
`new_avg = (old_avg * (n-1) + v) / n` with `n` the post-increment
`total_triggers`. -/
theorem C7_running_mean (now : ℤ) (rule : Rule) (vs : List ℚ)
    (hfresh : totalTriggers rule = 0) (hne : vs ≠ []) :
    (totalTriggers (applyTriggers now rule vs) = vs.length ∧
      avgOnTrigger (applyTriggers now rule vs) = vs.sum / (vs.length : ℚ)) ∧
    (∀ (r : Rule) (w : ℚ), 1 ≤ totalTriggers r →
      avgOnTrigger (update_last_triggered now r [] (some w)) =
        (avgOnTrigger r *
            ((totalTriggers (update_last_triggered now r [] (some w)) : ℚ) - 1) + w) /
          (totalTriggers (update_last_triggered now r [] (some w)) : ℚ)) := by
  constructor
  · cases vs with
    | nil => exact absurd rfl hne
    | cons v tail =>
      have h1 : totalTriggers (update_last_triggered now rule [] (some v)) = 1 := by
        rw [totalTriggers_update, hfresh]
        omega
      have ha := avg_update_first now rule v hfresh
      obtain ⟨iht, iha⟩ := applyTriggers_mean_aux now tail
        (update_last_triggered now rule [] (some v)) (by rw [h1])
      constructor
      · rw [applyTriggers_cons, iht, h1]
        simp [List.length_cons]
        omega
      · rw [applyTriggers_cons, iha, ha, h1]
        simp only [List.sum_cons, List.length_cons]
        push_cast
        ring_nf
  · intro r w hr
    rw [avg_update_step now r w hr, totalTriggers_update]
    push_cast
    ring_nf

theorem C7_running_mean_witness :
    (totalTriggers (applyTriggers 0 baseRule [2, 4]) = ([2, 4] : List ℚ).length ∧
      avgOnTrigger (applyTriggers 0 baseRule [2, 4]) =
        ([2, 4] : List ℚ).sum / (([2, 4] : List ℚ).length : ℚ)) ∧
    (∀ (r : Rule) (w : ℚ), 1 ≤ totalTriggers r →
      avgOnTrigger (update_last_triggered 0 r [] (some w)) =
        (avgOnTrigger r *
            ((totalTriggers (update_last_triggered 0 r [] (some w)) : ℚ) - 1) + w) /
          (totalTriggers (update_last_triggered 0 r [] (some w)) : ℚ)) :=
  C7_running_mean 0 baseRule [2, 4] (by decide) (by decide)

-- ==================== C5 ====================

/-- An email action explicitly disabled (`enabled = false`). -/
def c5action : RuleAction :=
  ⟨some "email", ⟨["ops@smartbuilding.com"], none, none, none⟩, some false⟩

def c5rule : Rule := { baseRule with actions := [c5action] }

/-- C5: the action-firing loop of `_trigger_rule_actions` iterates over
every action of the rule and calls `send_notification` for each one
without consulting `action['enabled']`: on a rule whose only action is a
disabled email action, the dispatcher is invoked for that action (and
the notification even succeeds), contradicting the claim that disabled
actions get no dispatch call. -/
theorem C5_disabled_action_still_dispatched :
    c5action.enabled = some false ∧
    (trigger_rule_actions (fun _ => 200) (fun _ => true) c5rule).map Prod.fst =
      [c5action] ∧
    (send_notification (fun _ => 200) (fun _ => true) c5action).1 = true := by
  decide

-- ==================== C10 ====================

/-- C10: a webhook action whose config carries `webhook_url` (non-empty)
but no `url` key passes rule validation (the validator accepts either
key), yet `send_notification` routes it to `_send_webhook`, which reads
only `config['url']` and returns `False` without performing any HTTP
request. -/
theorem C10_webhook_url_key_mismatch (action : RuleAction) (u : String)
    (hty : action.type = some "webhook") (hurl : action.config.url = none)
    (hw : action.config.webhook_url = some u) (hu : u ≠ "") :
    (validate_rule { baseRule with actions := [action] }).1 = true ∧
    ∀ (http : Request → ℕ) (smtp : List String → Bool),
      send_notification http smtp action = (false, []) := by
  have hva : validate_action action = none := by
    simp [validate_action, hty, truthyStr, hurl, hw, hu, ACTION_TYPES]
  constructor
  · simp [validate_rule, validate_actions, hva, baseRule, noConditions,
      truthyStr, RULE_TYPES, OPERATORS, SEVERITIES]
  · intro http smtp
    simp [send_notification, hty, send_webhook, truthyStr, hurl]

theorem C10_webhook_url_key_mismatch_witness :
    (validate_rule { baseRule with actions :=
        [⟨some "webhook", ⟨[], none, some "https://hooks.example.com/x", none⟩,
          some true⟩] }).1 = true ∧
    ∀ (http : Request → ℕ) (smtp : List String → Bool),
      send_notification http smtp
        ⟨some "webhook", ⟨[], none, some "https://hooks.example.com/x", none⟩,
          some true⟩ = (false, []) :=
  C10_webhook_url_key_mismatch _ "https://hooks.example.com/x" rfl rfl rfl (by decide)
